import Mathlib

/-!
Verification of the Resilient Generation Invocation Layer of the
Extension_Pro_backend repository.  Every definition below is a shallow
embedding of a concrete JavaScript function from the repository's source:

* `src/utils/geminiClient.js`  — credential pool, failure classifier,
  invocation engine with retry/backoff (the `maxRetries` revision of the
  file, the one the rest of the codebase and the design document describe);
* `src/utils/openaiClient.js`  — single-key retry engine and its classifier;
* `src/utils/errors.js`        — `AppError` and the status-code map;
* `src/controllers/keywords.js`— `extractJSONFromString`;
* `src/middleware/auditLog.js` — `sanitizeData`, the response-capture
  state machine, and the error-field derivation of the audit record;
* `src/utils/slackNotifier.js` — `notifySlack`.

JavaScript strings are modelled as Lean `String`s (ASCII-faithful),
JavaScript values as the inductive `JVal`, absent/`undefined` values as
`Option`, and the external upstream provider as an oracle function passed
to the engine.  `JSON.parse` is a platform builtin, not repository code,
so the extractor is parameterised by an arbitrary parser; a small
executable parser `miniJsonParse` is supplied to instantiate witnesses.
-/

/-- Lowercase a string character-by-character, modelling
`String.prototype.toLowerCase` on ASCII data. -/
def strToLower (s : String) : String :=
  ⟨s.toList.map Char.toLower⟩

/-- First index at which `pat` occurs in `l`, if any. -/
def findSubIdx : List Char → List Char → Option Nat
  | l, pat =>
    if pat.isPrefixOf l then some 0
    else
      match l with
      | [] => none
      | _ :: t => (findSubIdx t pat).map (· + 1)

/-- `pat` occurs as a contiguous substring of `s`, modelling
`String.prototype.includes`. -/
def strContains (s pat : String) : Bool :=
  (findSubIdx s.toList pat.toList).isSome

/-- `x.substring(0, n)` / truncation helper: the first `n` characters. -/
def strTake (s : String) (n : Nat) : String :=
  ⟨s.toList.take n⟩

/-! ## errors.js : ERROR_STATUS_MAP and AppError -/

/-- The `ERROR_STATUS_MAP` table of `src/utils/errors.js`. -/
def ERROR_STATUS_MAP : String → Option Nat
  | "INVALID_API_KEY" => some 401
  | "MISSING_API_KEY" => some 401
  | "AUTH_REQUIRED" => some 401
  | "AUTH_ERROR" => some 401
  | "FORBIDDEN" => some 403
  | "API_KEY_INACTIVE" => some 403
  | "USER_DELETED" => some 403
  | "USER_NOT_VERIFIED" => some 403
  | "DATA_ERROR" => some 500
  | "VALIDATION_ERROR" => some 400
  | "MISSING_FIELD" => some 400
  | "INVALID_FIELD" => some 400
  | "INVALID_FILE_TYPE" => some 400
  | "FILE_TOO_LARGE" => some 413
  | "INVALID_JSON" => some 400
  | "INVALID_FORMAT" => some 400
  | "NOT_FOUND" => some 404
  | "RESOURCE_NOT_FOUND" => some 404
  | "RECORD_NOT_FOUND" => some 404
  | "DUPLICATE_ENTRY" => some 409
  | "ALREADY_EXISTS" => some 409
  | "QUOTA_EXCEEDED" => some 429
  | "RATE_LIMIT_EXCEEDED" => some 429
  | "INTERNAL_SERVER_ERROR" => some 500
  | "DATABASE_ERROR" => some 500
  | "DATABASE_CONNECTION_ERROR" => some 503
  | "EXTERNAL_SERVICE_ERROR" => some 502
  | "SERVICE_UNAVAILABLE" => some 503
  | "CONFIGURATION_ERROR" => some 500
  | "AI_SERVICE_ERROR" => some 502
  | "AI_QUOTA_EXCEEDED" => some 429
  | "AI_INVALID_RESPONSE" => some 502
  | "AI_TIMEOUT" => some 504
  | _ => none

/-- The normalized error shape of `src/utils/errors.js` (`class AppError`):
errorCode, human message, HTTP status. -/
structure AppError where
  errorCode : String
  message : String
  statusCode : Nat
deriving DecidableEq, Repr

/-- The `AppError` constructor: `statusCode || ERROR_STATUS_MAP[errorCode] || 500`. -/
def mkAppError (errorCode message : String) (statusCode : Option Nat) : AppError :=
  { errorCode := errorCode
    message := message
    statusCode := statusCode.getD ((ERROR_STATUS_MAP errorCode).getD 500) }

/-! ## slackNotifier.js : notifySlack -/

/-- The `errorData` argument of `notifySlack` (`src/utils/slackNotifier.js`).
`none` models an absent (`undefined`/`null`) field. -/
structure SlackErrorData where
  statusCode : Nat
  errorCode : Option String
  errorMessage : Option String
  message : Option String
  service : Option String
  userEmail : Option String
  userId : Option String
  path : Option String
deriving DecidableEq, Repr

/-- JavaScript `x || dflt` on possibly-absent strings (empty string is falsy). -/
def jsOrStr (x : Option String) (dflt : String) : String :=
  match x with
  | some s => if s = "" then dflt else s
  | none => dflt

/-- The `requiresAttention` gate of `notifySlack`
(`src/utils/slackNotifier.js`, lines 12-18): server errors (status ≥ 500)
or one of five critical error codes. -/
def requiresAttention (d : SlackErrorData) : Bool :=
  decide (500 ≤ d.statusCode) ||
  d.errorCode = some "DATABASE_ERROR" ||
  d.errorCode = some "DATABASE_CONNECTION_ERROR" ||
  d.errorCode = some "CONFIGURATION_ERROR" ||
  d.errorCode = some "AI_SERVICE_ERROR" ||
  d.errorCode = some "SERVICE_UNAVAILABLE"

/-- The text `notifySlack` posts to the webhook (lines 30-44). -/
def slackMessageText (d : SlackErrorData) : String :=
  let service := jsOrStr d.service "UNKNOWN"
  let errorCode := jsOrStr d.errorCode ("HTTP_" ++ toString d.statusCode)
  let message := jsOrStr d.errorMessage (jsOrStr d.message "Unknown error")
  let shortMessage :=
    if message.length > 80 then strTake message 77 ++ "..." else message
  let userInfo :=
    jsOrStr d.userEmail
      (match d.userId with
       | some uid => if uid = "" then "N/A" else strTake uid 12
       | none => "N/A")
  "🚨 *" ++ service ++ "* | " ++ errorCode ++ " | " ++ shortMessage ++
    " | User: " ++ userInfo ++ " | Path: " ++ strTake (jsOrStr d.path "N/A") 30

/-- `notifySlack` (`src/utils/slackNotifier.js`): returns the message text
posted to the Slack webhook, or `none` when no outbound notification is
performed (gate not passed, or webhook URL not configured). -/
def notifySlack (webhookConfigured : Bool) (d : SlackErrorData) : Option String :=
  if !requiresAttention d then none
  else if !webhookConfigured then none
  else some (slackMessageText d)

/-! ## geminiClient.js : credential pool and failure classifier -/

/-- The three environment variables read by `getApiKeys`
(`src/utils/geminiClient.js`). `none` = variable unset. -/
structure GeminiEnv where
  GEMINI_API_KEY : Option String
  GEMINI_API_KEY_FALLBACK_1 : Option String
  GEMINI_API_KEY_FALLBACK_2 : Option String
deriving DecidableEq, Repr

/-- JavaScript truthiness of an environment variable (unset or empty = falsy). -/
def envTruthy : Option String → Bool
  | none => false
  | some s => s ≠ ""

/-- `getApiKeys` : the ordered credential pool (primary, fallback 1, fallback 2). -/
def getApiKeys (env : GeminiEnv) : List String :=
  (if envTruthy env.GEMINI_API_KEY then [env.GEMINI_API_KEY.getD ""] else []) ++
  (if envTruthy env.GEMINI_API_KEY_FALLBACK_1 then [env.GEMINI_API_KEY_FALLBACK_1.getD ""] else []) ++
  (if envTruthy env.GEMINI_API_KEY_FALLBACK_2 then [env.GEMINI_API_KEY_FALLBACK_2.getD ""] else [])

/-- A raw provider-library failure as inspected by the Gemini classifier:
`error.message`, `String(error.code || '')`, `String(error.status || '')`. -/
structure GemRawError where
  message : String
  code : String
  status : String
deriving DecidableEq, Repr

/-- `isRetryableError` of `src/utils/geminiClient.js` (lines 157-179):
retryable iff the lowercased message contains a 503/overload indicator, or
the stringified status or code equals `"503"` or `"429"`. -/
def geminiIsRetryableError (e : GemRawError) : Bool :=
  let errorMessage := strToLower e.message
  let errorCode := e.code
  let errorStatus := e.status
  strContains errorMessage "503" ||
  strContains errorMessage "service unavailable" ||
  strContains errorMessage "overloaded" ||
  strContains errorMessage "try again later" ||
  strContains errorMessage "temporarily unavailable" ||
  errorStatus = "503" ||
  errorCode = "503" ||
  errorStatus = "429" ||
  errorCode = "429"

/-! ## openaiClient.js : failure classifier -/

/-- A raw failure as inspected by the OpenAI classifier: `error.message`,
`error.status`, `error.response?.status`, `error.code` (stringified; empty
string models an absent/falsy field). -/
structure OAError where
  message : String
  status : String
  responseStatus : String
  code : String
deriving DecidableEq, Repr

/-- `error.status || error.response?.status || error.code`, then
`String(status || '')`. -/
def oaEffectiveStatus (e : OAError) : String :=
  if e.status ≠ "" then e.status
  else if e.responseStatus ≠ "" then e.responseStatus
  else e.code

/-- `isRetryableError` of `src/utils/openaiClient.js` (lines 26-37):
status 429/500/502/503, or a message containing `rate limit`,
`server error`, or `timeout`. -/
def openaiIsRetryableError (e : OAError) : Bool :=
  let statusCode := oaEffectiveStatus e
  (statusCode = "429" || statusCode = "500" || statusCode = "502" || statusCode = "503") ||
  strContains (strToLower e.message) "rate limit" ||
  strContains (strToLower e.message) "server error" ||
  strContains (strToLower e.message) "timeout"

/-! ## geminiClient.js : invocation engine (generateContentWithFallback) -/

/-- A value thrown by the upstream call: either a raw provider-library
error or an already-normalized `AppError` (`lastError instanceof AppError`
distinguishes the two in the source). -/
inductive JsError where
  | raw (e : GemRawError)
  | app (e : AppError)
deriving DecidableEq, Repr

/-- `error.message` of a thrown value. -/
def jsErrorMessage : JsError → String
  | .raw e => e.message
  | .app a => a.message

/-- The classifier applied to a thrown value: an `AppError` has no `code`
or `status` field, so those read as absent (empty after stringification). -/
def geminiJsRetryable : JsError → Bool
  | .raw e => geminiIsRetryableError e
  | .app a => geminiIsRetryableError { message := a.message, code := "", status := "" }

/-- Result of one upstream call `model.generateContent(prompt)`:
a response text, or a thrown error. -/
inductive GemUpRes where
  | ok (text : String)
  | err (e : JsError)
deriving DecidableEq, Repr

/-- One upstream attempt as logged by the engine: 0-based credential index,
0-based retry attempt on that credential, and the backoff delay (ms) slept
before the attempt (`0` for a first attempt). -/
structure Attempt where
  keyIndex : Nat
  retryAttempt : Nat
  delayMs : Nat
deriving DecidableEq, Repr

/-- Outcome of the retry loop on a single credential. -/
inductive KeyOutcome where
  | success (text : String)
  | moveOn (last : JsError)
deriving DecidableEq, Repr

/-- The inner retry loop of `generateContentWithFallback`
(`src/utils/geminiClient.js`, lines 207-252) on credential `i`, starting at
retry attempt `a` with `remaining = maxRetries - a` retries left:
sleep `2^(a-1) * 1000` ms when `a > 0`, call upstream, return on success;
on a retryable error with retries left, try the same credential again,
otherwise hand the last error back to the outer loop.  The two arms fold
the source's pair of conditions (`isRetryable && retryAttempt < maxRetries`
→ continue; `!isRetryable || retryAttempt >= maxRetries` → break): when no
retries remain the loop exits with the error regardless of retryability.
The first component is the trace of upstream calls made. -/
def geminiTryKey (call : Nat → GemUpRes) (i : Nat) :
    (a : Nat) → (remaining : Nat) → List Attempt × KeyOutcome
  | a, 0 =>
    let att : Attempt := ⟨i, a, if a = 0 then 0 else 2 ^ (a - 1) * 1000⟩
    match call a with
    | .ok t => ([att], .success t)
    | .err e => ([att], .moveOn e)
  | a, r + 1 =>
    let att : Attempt := ⟨i, a, if a = 0 then 0 else 2 ^ (a - 1) * 1000⟩
    match call a with
    | .ok t => ([att], .success t)
    | .err e =>
      if geminiJsRetryable e then
        let next := geminiTryKey call i (a + 1) r
        (att :: next.1, next.2)
      else ([att], .moveOn e)

/-- Result of the outer credential loop: a response text, or exhaustion
with the last error seen (`lastError`). -/
inductive EngineRes where
  | done (text : String)
  | exhausted (last : Option JsError)
deriving DecidableEq, Repr

/-- The outer credential loop (lines 201-259): iterate the remaining `m`
credentials starting at index `i`, running the inner retry loop on each;
return on first success, else advance to the next credential, threading
`lastError`. -/
def geminiTryKeys (call : Nat → Nat → GemUpRes) (maxRetries : Nat) :
    (i : Nat) → (m : Nat) → (last : Option JsError) → List Attempt × EngineRes
  | _, 0, last => ([], .exhausted last)
  | i, m + 1, _ =>
    let inner := geminiTryKey (call i) i 0 maxRetries
    match inner.2 with
    | .success t => (inner.1, .done t)
    | .moveOn e =>
      let rest := geminiTryKeys call maxRetries (i + 1) m (some e)
      (inner.1 ++ rest.1, rest.2)

/-- `generateContentWithFallback` of `src/utils/geminiClient.js`
(lines 188-287, the retry/backoff revision): build the credential pool from
the environment, fail fast with a `CONFIGURATION_ERROR` `AppError` on an
empty pool, otherwise run the credential × retry loops against the
upstream oracle `call` (indexed by credential index and retry attempt) and
normalize the terminal failure (lines 261-287).  Returns the trace of
upstream calls together with the response text or the thrown error. -/
def geminiGenerateContentWithFallback (env : GeminiEnv)
    (call : Nat → Nat → GemUpRes) (maxRetries : Nat) :
    List Attempt × Except JsError String :=
  let apiKeys := getApiKeys env
  if apiKeys.length = 0 then
    ([], .error (.app (mkAppError "CONFIGURATION_ERROR"
      "No Gemini API keys configured. Please set GEMINI_API_KEY in environment variables."
      (some 500))))
  else
    let run := geminiTryKeys call maxRetries 0 apiKeys.length none
    (run.1,
      match run.2 with
      | .done t => .ok t
      | .exhausted none =>
        .error (.app (mkAppError "AI_SERVICE_ERROR"
          "All AI API keys failed. Please try again later." (some 502)))
      | .exhausted (some (.app a)) => .error (.app a)
      | .exhausted (some (.raw e)) =>
        let errorMessage := strToLower e.message
        if strContains errorMessage "overloaded" ||
           strContains errorMessage "service unavailable" then
          .error (.app (mkAppError "AI_SERVICE_ERROR"
            "AI service is temporarily overloaded. Please try again in a few moments."
            (some 503)))
        else
          .error (.app (mkAppError "AI_SERVICE_ERROR"
            (if e.message = "" then "AI service error occurred" else e.message)
            (some 502))))

/-! ## openaiClient.js : invocation engine (generateContentWithFallback) -/

/-- Result of one upstream call `client.chat.completions.create(...)`. -/
inductive OAUpRes where
  | ok (text : String)
  | err (e : OAError)
deriving DecidableEq, Repr

/-- One attempt of the OpenAI retry loop: the 0-based retry attempt and the
backoff delay (ms) slept before it (`0` for the first attempt). -/
structure OAAttempt where
  retryAttempt : Nat
  delayMs : Nat
deriving DecidableEq, Repr

/-- The retry loop of `src/utils/openaiClient.js` (lines 54-124), starting
at attempt `a` with `remaining = maxRetries - a` retries left: sleep
`2^(a-1) * 500` ms when `a > 0`, call upstream, return on success; retry on
a retryable error while retries remain, otherwise exit the loop with the
last error (the two arms fold the source's continue/break conditions as in
`geminiTryKey`). -/
def openaiTryLoop (call : Nat → OAUpRes) :
    (a : Nat) → (remaining : Nat) → List OAAttempt × Option String × Option OAError
  | a, 0 =>
    let att : OAAttempt := ⟨a, if a = 0 then 0 else 2 ^ (a - 1) * 500⟩
    match call a with
    | .ok t => ([att], some t, none)
    | .err e => ([att], none, some e)
  | a, r + 1 =>
    let att : OAAttempt := ⟨a, if a = 0 then 0 else 2 ^ (a - 1) * 500⟩
    match call a with
    | .ok t => ([att], some t, none)
    | .err e =>
      if openaiIsRetryableError e then
        let next := openaiTryLoop call (a + 1) r
        (att :: next.1, next.2)
      else ([att], none, some e)

/-- `generateContentWithFallback` of `src/utils/openaiClient.js`
(lines 48-155): fail fast with a `CONFIGURATION_ERROR` `AppError` when
`OPEN_AI_KEY` is unset, run the retry loop, and map the terminal failure to
an `AppError` (429 rate-limit / 503 overloaded / 502 generic, lines
127-154).  Returns the trace of upstream calls and the outcome. -/
def openaiGenerateContentWithFallback (envKey : Option String)
    (call : Nat → OAUpRes) (maxRetries : Nat) :
    List OAAttempt × Except AppError String :=
  if !envTruthy envKey then
    ([], .error (mkAppError "CONFIGURATION_ERROR"
      "No OpenAI API key configured. Please set OPEN_AI_KEY in environment variables."
      (some 500)))
  else
    let run := openaiTryLoop call 0 maxRetries
    (run.1,
      match run.2.1 with
      | some t => .ok t
      | none =>
        match run.2.2 with
        | some lastError =>
          let errorMessage :=
            if lastError.message = "" then "AI service error occurred" else lastError.message
          if strContains errorMessage "rate limit" || strContains errorMessage "429" then
            .error (mkAppError "AI_SERVICE_ERROR"
              "AI service rate limit exceeded. Please try again in a few moments."
              (some 429))
          else if strContains errorMessage "overloaded" || strContains errorMessage "503" then
            .error (mkAppError "AI_SERVICE_ERROR"
              "AI service is temporarily overloaded. Please try again in a few moments."
              (some 503))
          else
            .error (mkAppError "AI_SERVICE_ERROR" errorMessage (some 502))
        | none =>
          .error (mkAppError "AI_SERVICE_ERROR"
            "OpenAI API request failed. Please try again later." (some 502)))

/-! ## keywords.js : extractJSONFromString -/

/-- JavaScript `\s` on the ASCII range: space, tab, LF, VT, FF, CR. -/
def jsWhitespaceChar (c : Char) : Bool :=
  c = Char.ofNat 32 || c = Char.ofNat 9 || c = Char.ofNat 10 ||
  c = Char.ofNat 11 || c = Char.ofNat 12 || c = Char.ofNat 13

/-- Strip leading and trailing whitespace (the two greedy `\s*` of the
fenced-block regex). -/
def trimWs (l : List Char) : List Char :=
  ((l.dropWhile jsWhitespaceChar).reverse.dropWhile jsWhitespaceChar).reverse

/-- The fenced-block locator `input.match(/```json\s*([\s\S]*?)\s*```/)` of
`extractJSONFromString`: the capture group of the leftmost match — the text
between the first ` ```json ` marker and the first ` ``` ` after it, with
surrounding whitespace stripped.  `none` when the regex does not match. -/
def locateJsonBlock (input : String) : Option String :=
  let cs := input.toList
  match findSubIdx cs "```json".toList with
  | none => none
  | some i =>
    let rest := cs.drop (i + 7)
    match findSubIdx rest "```".toList with
    | none => none
    | some j => some ⟨trimWs (rest.take j)⟩

def lbraceChar : Char := Char.ofNat 123

def rbraceChar : Char := Char.ofNat 125

/-- The brace-span scan `input.match(/\{[\s\S]*\}/)`: greedy, from the
first opening brace to the last closing brace after it. -/
def braceSpan (input : String) : Option String :=
  let cs := input.toList
  match cs.findIdx? (· = lbraceChar) with
  | none => none
  | some i =>
    match cs.reverse.findIdx? (· = rbraceChar) with
    | none => none
    | some k =>
      let j := cs.length - 1 - k
      if i < j then some ⟨(cs.drop i).take (j - i + 1)⟩ else none

/-- Result of `extractJSONFromString`: a parsed value, the
"Found a JSON block, but it contained invalid JSON." error, or the
"Could not find a valid JSON object in the model's response." error. -/
inductive ExtractResult (J : Type) where
  | ok (v : J)
  | errInvalidBlock
  | errNoJson
deriving DecidableEq, Repr

/-- `extractJSONFromString` of `src/controllers/keywords.js` (lines 88-115),
parameterised by the platform JSON parser (`JSON.parse`, which is not
repository code): strategy 1 parses the interior of a located ` ```json `
block and fails immediately with the invalid-block error when that parse
fails; only when no block is located does it try the whole text and then
the brace span. -/
def extractJSONFromString {J : Type} (parse : String → Option J) (input : String) :
    ExtractResult J :=
  match locateJsonBlock input with
  | some inner =>
    match parse inner with
    | some v => .ok v
    | none => .errInvalidBlock
  | none =>
    match parse input with
    | some v => .ok v
    | none =>
      match braceSpan input with
      | some span =>
        match parse span with
        | some v => .ok v
        | none => .errNoJson
      | none => .errNoJson

/-! ### A small executable JSON parser

`JSON.parse` is a platform builtin outside this repository; the theorems
about the extractor hold for every parser.  `miniJsonParse` is a concrete
executable parser for a JSON subset (integer numerals, basic escapes),
used only to instantiate those theorems in witnesses. -/

inductive MiniJson where
  | null
  | boolv (b : Bool)
  | num (n : Int)
  | str (s : String)
  | arr (items : List MiniJson)
  | obj (fields : List (String × MiniJson))
deriving Repr

def quotChar : Char := Char.ofNat 34

def backslashChar : Char := Char.ofNat 92

def lbrackChar : Char := Char.ofNat 91

def rbrackChar : Char := Char.ofNat 93

def colonChar : Char := Char.ofNat 58

def commaChar : Char := Char.ofNat 44

def skipWs (l : List Char) : List Char :=
  l.dropWhile jsWhitespaceChar

/-- Unescape one backslash-escaped character. -/
def escChar (c : Char) : Char :=
  if c = Char.ofNat 110 then Char.ofNat 10
  else if c = Char.ofNat 116 then Char.ofNat 9
  else if c = Char.ofNat 114 then Char.ofNat 13
  else c

/-- Parse the remainder of a string literal (after the opening quote). -/
def parseStringLit : List Char → Option (List Char × List Char)
  | [] => none
  | c :: rest =>
    if c = quotChar then some ([], rest)
    else if c = backslashChar then
      match rest with
      | [] => none
      | e :: rest2 => (parseStringLit rest2).map (fun p => (escChar e :: p.1, p.2))
    else (parseStringLit rest).map (fun p => (c :: p.1, p.2))

def digitChar (c : Char) : Bool :=
  48 ≤ c.toNat && c.toNat ≤ 57

/-- Parse an (optionally negated) integer numeral. -/
def parseNum (l : List Char) : Option (MiniJson × List Char) :=
  let neg := l.head? = some (Char.ofNat 45)
  let l1 := if neg then l.tail else l
  let digits := l1.takeWhile digitChar
  if digits.isEmpty then none
  else
    let n : Nat := digits.foldl (fun acc c => acc * 10 + (c.toNat - 48)) 0
    some (.num (if neg then -(n : Int) else (n : Int)), l1.drop digits.length)

mutual

def parseValue : Nat → List Char → Option (MiniJson × List Char)
  | 0, _ => none
  | fuel + 1, l =>
    let l := skipWs l
    match l with
    | [] => none
    | c :: rest =>
      if c = quotChar then
        (parseStringLit rest).map (fun p => (.str ⟨p.1⟩, p.2))
      else if c = lbraceChar then
        let r := skipWs rest
        match r with
        | d :: r2 =>
          if d = rbraceChar then some (.obj [], r2)
          else (parseMembers fuel r).map (fun p => (.obj p.1, p.2))
        | [] => none
      else if c = lbrackChar then
        let r := skipWs rest
        match r with
        | d :: r2 =>
          if d = rbrackChar then some (.arr [], r2)
          else (parseItems fuel r).map (fun p => (.arr p.1, p.2))
        | [] => none
      else if "null".toList.isPrefixOf l then some (.null, l.drop 4)
      else if "true".toList.isPrefixOf l then some (.boolv true, l.drop 4)
      else if "false".toList.isPrefixOf l then some (.boolv false, l.drop 5)
      else parseNum l

def parseMembers : Nat → List Char → Option (List (String × MiniJson) × List Char)
  | 0, _ => none
  | fuel + 1, l =>
    let l := skipWs l
    match l with
    | c :: rest =>
      if c = quotChar then
        match parseStringLit rest with
        | none => none
        | some (key, r1) =>
          match skipWs r1 with
          | d :: r2 =>
            if d = colonChar then
              match parseValue fuel r2 with
              | none => none
              | some (v, r3) =>
                match skipWs r3 with
                | e :: r4 =>
                  if e = commaChar then
                    (parseMembers fuel r4).map (fun p => ((⟨key⟩, v) :: p.1, p.2))
                  else if e = rbraceChar then some ([(⟨key⟩, v)], r4)
                  else none
                | [] => none
            else none
          | [] => none
      else none
    | [] => none

def parseItems : Nat → List Char → Option (List MiniJson × List Char)
  | 0, _ => none
  | fuel + 1, l =>
    match parseValue fuel l with
    | none => none
    | some (v, r1) =>
      match skipWs r1 with
      | e :: r2 =>
        if e = commaChar then
          (parseItems fuel r2).map (fun p => (v :: p.1, p.2))
        else if e = rbrackChar then some ([v], r2)
        else none
      | [] => none

end

/-- Executable stand-in for `JSON.parse` on a JSON subset: parses the whole
string (allowing surrounding whitespace) or fails. -/
def miniJsonParse (s : String) : Option MiniJson :=
  match parseValue (s.length + 1) s.toList with
  | some (v, rest) => if (skipWs rest).isEmpty then some v else none
  | none => none

/-! ## auditLog.js : sanitizeData -/

/-- JavaScript values flowing through the audit pipeline. -/
inductive JVal where
  | nullv
  | str (s : String)
  | num (n : Int)
  | boolv (b : Bool)
  | arr (items : List JVal)
  | obj (fields : List (String × JVal))
deriving Repr

/-- The `sensitiveKeys` list of `sanitizeData`
(`src/middleware/auditLog.js`, line 34).  Note the capital K in `apiKey`:
since it is matched against a lowercased key, that entry can only fire
through the `key` entry anyway. -/
def sensitiveKeys : List String :=
  ["password", "token", "apiKey", "api_key", "authorization", "x-api-key", "secret", "key"]

/-- `sensitiveKeys.some(sensitive => lowerKey.includes(sensitive))`. -/
def isSensitiveKey (key : String) : Bool :=
  let lowerKey := strToLower key
  sensitiveKeys.any (fun sensitive => strContains lowerKey sensitive)

/-- The entry loop of `sanitizeData` over `Object.entries(data)`
(lines 36-52): `count` is the number of entries already added
(`Object.keys(sanitized).length`).  A sensitive key is redacted (before
the size check); otherwise, once 50 entries have been added, a single
too-many-keys marker is appended and the loop stops; otherwise the value
is sanitized recursively by `go`. -/
def sanitizeEntriesAux (go : JVal → JVal) : List (String × JVal) → Nat → List (String × JVal)
  | [], _ => []
  | (key, value) :: rest, count =>
    if isSensitiveKey key then
      (key, JVal.str "[REDACTED]") :: sanitizeEntriesAux go rest (count + 1)
    else if 50 ≤ count then
      [("...", JVal.str "[Too many keys, truncated]")]
    else
      (key, go value) :: sanitizeEntriesAux go rest (count + 1)

/-- One level of `sanitizeData` given the sanitizer `go` for the next
depth: strings over 1000 characters are truncated; arrays are capped at
10 elements; objects go through the entry loop. -/
def sanitizeLevel (go : JVal → JVal) : JVal → JVal
  | .nullv => .nullv
  | .str s =>
    if s.length > 1000 then .str (strTake s 1000 ++ "... [truncated]") else .str s
  | .num n => .num n
  | .boolv b => .boolv b
  | .arr items => .arr ((items.take 10).map go)
  | .obj fields => .obj (sanitizeEntriesAux go fields 0)

/-- `sanitizeData` with `fuel = maxDepth - currentDepth` remaining levels:
at zero the subtree becomes the max-depth marker. -/
def sanitizeAux : Nat → JVal → JVal
  | 0 => fun _ => .str "[Max Depth Reached]"
  | fuel + 1 => sanitizeLevel (sanitizeAux fuel)

/-- `sanitizeData(data, maxDepth, currentDepth)` of
`src/middleware/auditLog.js` (lines 7-58); the middleware calls it with the
default `maxDepth = 3`, `currentDepth = 0`. -/
def sanitizeData (data : JVal) (maxDepth currentDepth : Nat) : JVal :=
  sanitizeAux (maxDepth - currentDepth) data

/-! ## auditLog.js : error-field derivation -/

/-- JavaScript falsiness of a value. -/
def jvFalsy : JVal → Bool
  | .nullv => true
  | .str s => s = ""
  | .num n => n = 0
  | .boolv b => !b
  | .arr _ => false
  | .obj _ => false

/-- `typeof x === 'object'` for the modelled values (objects, arrays, and
`null` all have typeof `object`). -/
def isObjectType : JVal → Bool
  | .arr _ => true
  | .obj _ => true
  | .nullv => true
  | _ => false

/-- Property access `v[key]` on an object (`none` = `undefined`). -/
def jsObjGet (v : JVal) (key : String) : Option JVal :=
  match v with
  | .obj fields => (fields.find? (fun p => p.1 = key)).map (·.2)
  | _ => none

/-- JavaScript `x || y` ending in `null` (`none`). -/
def jsOrJ (x y : Option JVal) : Option JVal :=
  match x with
  | some v => if jvFalsy v then y else some v
  | none => y

/-- `sanitizedResponseBody.errorCode || sanitizedResponseBody.error_code || null`
under the guard of lines 188-192 (body truthy and of typeof `object`). -/
def bodyExplicitErrorCode (sanitizedResponseBody : Option JVal) : Option JVal :=
  match sanitizedResponseBody with
  | some b =>
    if !jvFalsy b && isObjectType b then
      jsOrJ (jsObjGet b "errorCode") (jsOrJ (jsObjGet b "error_code") none)
    else none
  | none => none

/-- `sanitizedResponseBody.message || sanitizedResponseBody.error || null`
under the same guard. -/
def bodyExplicitErrorMessage (sanitizedResponseBody : Option JVal) : Option JVal :=
  match sanitizedResponseBody with
  | some b =>
    if !jvFalsy b && isObjectType b then
      jsOrJ (jsObjGet b "message") (jsOrJ (jsObjGet b "error") none)
    else none
  | none => none

/-- The error-field derivation of `auditLogMiddleware`
(`src/middleware/auditLog.js`, lines 182-199): for a final status ≥ 400,
`errorCode = body.errorCode || body.error_code || null` and
`errorMessage = body.message || body.error || null` read from the sanitized
response body when it is a truthy object; a missing code falls back to
`HTTP_<status>`.  Below 400 both fields stay `null`. -/
def deriveErrorFields (statusCode : Nat) (sanitizedResponseBody : Option JVal) :
    Option JVal × Option JVal :=
  if 400 ≤ statusCode then
    let pair :=
      (bodyExplicitErrorCode sanitizedResponseBody,
       bodyExplicitErrorMessage sanitizedResponseBody)
    match pair.1 with
    | none => (some (.str ("HTTP_" ++ toString statusCode)), pair.2)
    | some v => (some v, pair.2)
  else (none, none)

/-! ## auditLog.js : response capture -/

/-- The closure state of the patched `res.send`/`res.json`
(`src/middleware/auditLog.js`, lines 120-140). -/
structure CaptureState (α : Type) where
  responseBody : Option α
  responseSent : Bool
deriving DecidableEq, Repr

/-- An invocation of a patched response method with its body argument. -/
inductive ResEvent (α : Type) where
  | send (b : α)
  | json (b : α)
deriving DecidableEq, Repr

def resEventBody {α : Type} : ResEvent α → α
  | .send b => b
  | .json b => b

/-- The shared body of the patched `res.send` and `res.json`: capture the
body only when `responseSent` is still false, then forward the body to the
original method unconditionally. -/
def handleResponseCall {α : Type} (s : CaptureState α) (b : α) : CaptureState α × α :=
  if s.responseSent then (s, b)
  else ({ responseBody := some b, responseSent := true }, b)

/-- Run a sequence of `res.send`/`res.json` invocations against the capture
state, returning the final state and the list of bodies forwarded to the
original methods. -/
def runResponseEvents {α : Type} : CaptureState α → List (ResEvent α) → CaptureState α × List α
  | s, [] => (s, [])
  | s, e :: rest =>
    let step := handleResponseCall s (resEventBody e)
    let next := runResponseEvents step.1 rest
    (next.1, step.2 :: next.2)

/-! ## Test helpers for sanitized objects -/

/-- Does the (sanitized) object contain an entry with the given key? -/
def objHasKey (v : JVal) (key : String) : Bool :=
  match v with
  | .obj fields => fields.any (fun p => p.1 == key)
  | _ => false

/-- Does the (sanitized) object carry the redaction marker at the given key? -/
def objRedacted (v : JVal) (key : String) : Bool :=
  match v with
  | .obj fields =>
    fields.any (fun p => p.1 == key &&
      match p.2 with
      | .str s => s == "[REDACTED]"
      | _ => false)
  | _ => false

/-- Test vector: 51 non-sensitive two-digit keys ("00".."50") followed by a
`password` entry. -/
def bigFields : List (String × JVal) :=
  (List.range 51).map (fun n =>
    (String.mk [Char.ofNat (48 + n / 10), Char.ofNat (48 + n % 10)], JVal.num 0)) ++
  [("password", JVal.str "xyz")]

/-! # Theorems about the claims -/

/-- Claim C1, counterexample: an alert-dispatch input with HTTP status 429
(a client error in 400..499) and errorCode `AI_SERVICE_ERROR` — exactly the
shape the OpenAI engine produces for rate-limit exhaustion — does trigger
an outbound notification, so 4xx inputs do not universally suppress the
dispatch. -/
theorem notifySlack_dispatches_on_429_ai_service_error :
    400 ≤ (429 : Nat) ∧ (429 : Nat) ≤ 499 ∧
    notifySlack true
      { statusCode := 429, errorCode := some "AI_SERVICE_ERROR",
        errorMessage := some "AI service rate limit exceeded. Please try again in a few moments.",
        message := none, service := some "KEYWORDS", userEmail := none,
        userId := none, path := some "/api/keywords" } ≠ none := by
  refine ⟨by decide, by decide, by decide⟩

/-- Claim C1 (amended): an alert-dispatch input with a 4xx HTTP status
performs no outbound notification unless its errorCode is one of the five
critical codes (`DATABASE_ERROR`, `DATABASE_CONNECTION_ERROR`,
`CONFIGURATION_ERROR`, `AI_SERVICE_ERROR`, `SERVICE_UNAVAILABLE`); a 4xx
carrying one of those codes is dispatched. -/
theorem notifySlack_no_dispatch_plain_4xx (w : Bool) (d : SlackErrorData)
    (_h400 : 400 ≤ d.statusCode) (h499 : d.statusCode ≤ 499)
    (h3 : d.errorCode ≠ some "DATABASE_ERROR")
    (h4 : d.errorCode ≠ some "DATABASE_CONNECTION_ERROR")
    (h5 : d.errorCode ≠ some "CONFIGURATION_ERROR")
    (h6 : d.errorCode ≠ some "AI_SERVICE_ERROR")
    (h7 : d.errorCode ≠ some "SERVICE_UNAVAILABLE") :
    notifySlack w d = none := by
  have hreq : requiresAttention d = false := by
    unfold requiresAttention
    simp only [Bool.or_eq_false_iff, decide_eq_false_iff_not]
    exact ⟨⟨⟨⟨⟨by omega, h3⟩, h4⟩, h5⟩, h6⟩, h7⟩
  unfold notifySlack
  rw [hreq]
  rfl

/-- Claim C1 witness: a 404 with a non-critical errorCode is not dispatched. -/
theorem notifySlack_no_dispatch_plain_4xx_witness :
    notifySlack true
      { statusCode := 404, errorCode := some "NOT_FOUND",
        errorMessage := some "not found", message := none, service := none,
        userEmail := none, userId := none, path := none } = none :=
  notifySlack_no_dispatch_plain_4xx true _ (by decide) (by decide)
    (by decide) (by decide) (by decide) (by decide) (by decide)

/-- Claim C3, counterexample: a raw failure whose message carries both
rate-limit indicators ("rate limit", "quota") but no 503/429 status is
classified NOT retryable by the Gemini classifier, and a "quota" message is
classified NOT retryable by the OpenAI classifier. -/
theorem rate_limit_message_not_retryable :
    geminiIsRetryableError
      { message := "You have hit the rate limit: insufficient quota.",
        code := "", status := "" } = false ∧
    openaiIsRetryableError
      { message := "insufficient quota: quota exceeded for this billing period",
        status := "", responseStatus := "", code := "" } = false := by
  exact ⟨by decide, by decide⟩

/-- Claim C3 (amended): a raw failure whose status or code field equals 429
is classified retryable on both provider paths, and on the OpenAI path a
message containing "rate limit" is also retryable; but message-only
"rate limit"/"quota" indicators do not make the Gemini classifier
retryable, and "quota" alone does not make the OpenAI classifier retryable
(the classifiers return a bare retryable boolean; no error kind exists in
the code). -/
theorem classifiers_retryable_on_429 :
    (∀ e : GemRawError, e.status = "429" ∨ e.code = "429" →
        geminiIsRetryableError e = true) ∧
    (∀ e : OAError,
        oaEffectiveStatus e = "429" ∨ strContains (strToLower e.message) "rate limit" = true →
        openaiIsRetryableError e = true) := by
  constructor
  · intro e h
    rcases h with h | h <;> simp [geminiIsRetryableError, h]
  · intro e h
    rcases h with h | h <;> simp [openaiIsRetryableError, h]

/-- Claim C3 witness: a failure with status field 429 is retryable on both
paths. -/
theorem classifiers_retryable_on_429_witness :
    geminiIsRetryableError { message := "", code := "", status := "429" } = true ∧
    openaiIsRetryableError { message := "", status := "429", responseStatus := "", code := "" } = true :=
  ⟨classifiers_retryable_on_429.1 _ (Or.inl rfl),
   classifiers_retryable_on_429.2 _ (Or.inl rfl)⟩

/-! ## Helper lemmas: traces of the invocation engines -/

theorem geminiTryKey_length (call : Nat → GemUpRes) (i : Nat) :
    ∀ r a, (geminiTryKey call i a r).1.length ≤ r + 1 := by
  intro r
  induction r with
  | zero =>
    intro a
    cases hcall : call a <;> simp [geminiTryKey, hcall]
  | succ r ih =>
    intro a
    cases hcall : call a with
    | ok t => simp [geminiTryKey, hcall]
    | err e =>
      by_cases hr : geminiJsRetryable e
      · have hnext := ih (a + 1)
        simp only [geminiTryKey, hcall, hr, if_true, List.length_cons]
        omega
      · simp [geminiTryKey, hcall, hr]

theorem geminiTryKey_bounds (call : Nat → GemUpRes) (i : Nat) :
    ∀ r a att, att ∈ (geminiTryKey call i a r).1 →
      att.keyIndex = i ∧ a ≤ att.retryAttempt := by
  intro r
  induction r with
  | zero =>
    intro a att h
    cases hcall : call a <;> simp [geminiTryKey, hcall] at h <;>
      subst h <;> exact ⟨rfl, Nat.le_refl a⟩
  | succ r ih =>
    intro a att h
    cases hcall : call a with
    | ok t =>
      simp [geminiTryKey, hcall] at h
      subst h
      exact ⟨rfl, Nat.le_refl a⟩
    | err e =>
      by_cases hr : geminiJsRetryable e
      · simp [geminiTryKey, hcall, hr] at h
        rcases h with h | h
        · subst h
          exact ⟨rfl, Nat.le_refl a⟩
        · obtain ⟨h1, h2⟩ := ih (a + 1) att h
          exact ⟨h1, by omega⟩
      · simp [geminiTryKey, hcall, hr] at h
        subst h
        exact ⟨rfl, Nat.le_refl a⟩

theorem geminiTryKey_delay (call : Nat → GemUpRes) (i : Nat) :
    ∀ r a att, att ∈ (geminiTryKey call i a r).1 →
      att.delayMs = if att.retryAttempt = 0 then 0 else 1000 * 2 ^ (att.retryAttempt - 1) := by
  intro r
  induction r with
  | zero =>
    intro a att h
    cases hcall : call a <;> simp [geminiTryKey, hcall] at h <;>
      subst h <;> cases a <;> simp [Nat.mul_comm]
  | succ r ih =>
    intro a att h
    cases hcall : call a with
    | ok t =>
      simp [geminiTryKey, hcall] at h
      subst h
      cases a <;> simp [Nat.mul_comm]
    | err e =>
      by_cases hr : geminiJsRetryable e
      · simp [geminiTryKey, hcall, hr] at h
        rcases h with h | h
        · subst h
          cases a <;> simp [Nat.mul_comm]
        · exact ih (a + 1) att h
      · simp [geminiTryKey, hcall, hr] at h
        subst h
        cases a <;> simp [Nat.mul_comm]

theorem geminiTryKey_first (call : Nat → GemUpRes) (i : Nat) (r a : Nat) :
    ∃ att ∈ (geminiTryKey call i a r).1, att.keyIndex = i ∧ att.retryAttempt = a := by
  refine ⟨⟨i, a, if a = 0 then 0 else 2 ^ (a - 1) * 1000⟩, ?_, rfl, rfl⟩
  cases r with
  | zero => cases hcall : call a <;> simp [geminiTryKey, hcall]
  | succ r =>
    cases hcall : call a with
    | ok t => simp [geminiTryKey, hcall]
    | err e =>
      by_cases hr : geminiJsRetryable e <;> simp [geminiTryKey, hcall, hr]

theorem geminiTryKey_stop (call : Nat → GemUpRes) (i : Nat) (a0 : Nat) (e : JsError)
    (hcall : call a0 = .err e) (hterm : geminiJsRetryable e = false) :
    ∀ r a, a ≤ a0 → ∀ att ∈ (geminiTryKey call i a r).1, att.retryAttempt ≤ a0 := by
  intro r
  induction r with
  | zero =>
    intro a ha att h
    cases hcall2 : call a <;> simp [geminiTryKey, hcall2] at h <;> subst h <;> exact ha
  | succ r ih =>
    intro a ha att h
    cases hcall2 : call a with
    | ok t =>
      simp [geminiTryKey, hcall2] at h
      subst h
      exact ha
    | err e2 =>
      by_cases hr : geminiJsRetryable e2
      · have hne : a ≠ a0 := by
          intro heq
          subst heq
          rw [hcall] at hcall2
          cases hcall2
          rw [hr] at hterm
          cases hterm
        simp [geminiTryKey, hcall2, hr] at h
        rcases h with h | h
        · subst h
          exact ha
        · exact ih (a + 1) (by omega) att h
      · simp [geminiTryKey, hcall2, hr] at h
        subst h
        exact ha

theorem geminiTryKeys_key_range (call : Nat → Nat → GemUpRes) (R : Nat) :
    ∀ m i last att, att ∈ (geminiTryKeys call R i m last).1 →
      i ≤ att.keyIndex ∧ att.keyIndex < i + m := by
  intro m
  induction m with
  | zero =>
    intro i last att h
    simp [geminiTryKeys] at h
  | succ m ih =>
    intro i last att h
    cases hout : (geminiTryKey (call i) i 0 R).2 with
    | success t =>
      simp [geminiTryKeys, hout] at h
      have := (geminiTryKey_bounds (call i) i R 0 att h).1
      omega
    | moveOn e =>
      simp [geminiTryKeys, hout] at h
      rcases h with h | h
      · have := (geminiTryKey_bounds (call i) i R 0 att h).1
        omega
      · have := ih (i + 1) (some e) att h
        omega

theorem geminiTryKeys_cover (call : Nat → Nat → GemUpRes) (R : Nat) :
    ∀ m i last l, (geminiTryKeys call R i m last).2 = .exhausted l →
      ∀ j, i ≤ j → j < i + m →
        ∃ att ∈ (geminiTryKeys call R i m last).1,
          att.keyIndex = j ∧ att.retryAttempt = 0 := by
  intro m
  induction m with
  | zero =>
    intro i last l _ j hj1 hj2
    omega
  | succ m ih =>
    intro i last l h j hj1 hj2
    cases hout : (geminiTryKey (call i) i 0 R).2 with
    | success t => simp [geminiTryKeys, hout] at h
    | moveOn e =>
      by_cases hji : j = i
      · subst hji
        obtain ⟨att, hmem, hki, hra⟩ := geminiTryKey_first (call j) j R 0
        refine ⟨att, ?_, hki, hra⟩
        simp [geminiTryKeys, hout]
        exact Or.inl hmem
      · have h2 : (geminiTryKeys call R (i + 1) m (some e)).2 = .exhausted l := by
          simpa [geminiTryKeys, hout] using h
        obtain ⟨att, hmem, hki, hra⟩ := ih (i + 1) (some e) l h2 j (by omega) (by omega)
        refine ⟨att, ?_, hki, hra⟩
        simp [geminiTryKeys, hout]
        exact Or.inr hmem

theorem geminiTryKeys_segment (call : Nat → Nat → GemUpRes) (R : Nat) :
    ∀ m i last att, att ∈ (geminiTryKeys call R i m last).1 →
      att ∈ (geminiTryKey (call att.keyIndex) att.keyIndex 0 R).1 := by
  intro m
  induction m with
  | zero =>
    intro i last att h
    simp [geminiTryKeys] at h
  | succ m ih =>
    intro i last att h
    cases hout : (geminiTryKey (call i) i 0 R).2 with
    | success t =>
      simp [geminiTryKeys, hout] at h
      have hki := (geminiTryKey_bounds (call i) i R 0 att h).1
      rw [hki]
      exact h
    | moveOn e =>
      simp [geminiTryKeys, hout] at h
      rcases h with h | h
      · have hki := (geminiTryKey_bounds (call i) i R 0 att h).1
        rw [hki]
        exact h
      · exact ih (i + 1) (some e) att h

theorem geminiTryKeys_length (call : Nat → Nat → GemUpRes) (R : Nat) :
    ∀ m i last, (geminiTryKeys call R i m last).1.length ≤ m * (R + 1) := by
  intro m
  induction m with
  | zero =>
    intro i last
    simp [geminiTryKeys]
  | succ m ih =>
    intro i last
    have hmul : (m + 1) * (R + 1) = m * (R + 1) + (R + 1) := by ring
    cases hout : (geminiTryKey (call i) i 0 R).2 with
    | success t =>
      have h1 := geminiTryKey_length (call i) i R 0
      simp only [geminiTryKeys, hout]
      omega
    | moveOn e =>
      have h1 := geminiTryKey_length (call i) i R 0
      have h2 := ih (i + 1) (some e)
      simp only [geminiTryKeys, hout, List.length_append]
      omega

theorem gemini_engine_trace_mem (env : GeminiEnv) (call : Nat → Nat → GemUpRes)
    (R : Nat) (att : Attempt)
    (h : att ∈ (geminiGenerateContentWithFallback env call R).1) :
    att ∈ (geminiTryKeys call R 0 (getApiKeys env).length none).1 := by
  unfold geminiGenerateContentWithFallback at h
  by_cases hk : (getApiKeys env).length = 0
  · simp [hk] at h
  · simpa [hk] using h

theorem gemini_engine_trace_eq (env : GeminiEnv) (call : Nat → Nat → GemUpRes)
    (R : Nat) (hk : (getApiKeys env).length ≠ 0) :
    (geminiGenerateContentWithFallback env call R).1 =
      (geminiTryKeys call R 0 (getApiKeys env).length none).1 := by
  simp [geminiGenerateContentWithFallback, hk]

theorem openaiTryLoop_delay (call : Nat → OAUpRes) :
    ∀ r a att, att ∈ (openaiTryLoop call a r).1 →
      att.delayMs = if att.retryAttempt = 0 then 0 else 500 * 2 ^ (att.retryAttempt - 1) := by
  intro r
  induction r with
  | zero =>
    intro a att h
    cases hcall : call a <;> simp [openaiTryLoop, hcall] at h <;> subst h <;>
      cases a <;> simp [Nat.mul_comm]
  | succ r ih =>
    intro a att h
    cases hcall : call a with
    | ok t =>
      simp [openaiTryLoop, hcall] at h
      subst h
      cases a <;> simp [Nat.mul_comm]
    | err e =>
      by_cases hr : openaiIsRetryableError e
      · simp [openaiTryLoop, hcall, hr] at h
        rcases h with h | h
        · subst h
          cases a <;> simp [Nat.mul_comm]
        · exact ih (a + 1) att h
      · simp [openaiTryLoop, hcall, hr] at h
        subst h
        cases a <;> simp [Nat.mul_comm]

theorem openai_engine_trace_mem (envKey : Option String) (call : Nat → OAUpRes)
    (R : Nat) (att : OAAttempt)
    (h : att ∈ (openaiGenerateContentWithFallback envKey call R).1) :
    att ∈ (openaiTryLoop call 0 R).1 := by
  unfold openaiGenerateContentWithFallback at h
  by_cases hk : envTruthy envKey = true
  · simpa [hk] using h
  · simp [hk] at h

/-- Claim C5: one top-level call to the Gemini invocation engine makes at
most `N * (maxRetries + 1)` upstream calls for a pool of `N` credentials
(and, the engine being a total function, always terminates). -/
theorem gemini_attempts_bounded (env : GeminiEnv) (call : Nat → Nat → GemUpRes) (R : Nat) :
    (geminiGenerateContentWithFallback env call R).1.length ≤
      (getApiKeys env).length * (R + 1) := by
  by_cases hk : (getApiKeys env).length = 0
  · simp [geminiGenerateContentWithFallback, hk]
  · have h := geminiTryKeys_length call R (getApiKeys env).length 0 none
    rw [gemini_engine_trace_eq env call R hk]
    exact h

/-- Claim C8: on every attempt of either engine, the backoff delay slept
before attempt `a ≥ 1` is exactly `base * 2^(a-1)` (base 1000 ms on the
Gemini path, 500 ms on the OpenAI path), and the first attempt (`a = 0`)
sleeps no delay. -/
theorem backoff_delays_exponential :
    (∀ (env : GeminiEnv) (call : Nat → Nat → GemUpRes) (R : Nat),
      ∀ att ∈ (geminiGenerateContentWithFallback env call R).1,
        att.delayMs = if att.retryAttempt = 0 then 0 else 1000 * 2 ^ (att.retryAttempt - 1)) ∧
    (∀ (envKey : Option String) (call : Nat → OAUpRes) (R : Nat),
      ∀ att ∈ (openaiGenerateContentWithFallback envKey call R).1,
        att.delayMs = if att.retryAttempt = 0 then 0 else 500 * 2 ^ (att.retryAttempt - 1)) := by
  constructor
  · intro env call R att h
    have h2 := gemini_engine_trace_mem env call R att h
    have h3 := geminiTryKeys_segment call R _ 0 none att h2
    exact geminiTryKey_delay (call att.keyIndex) att.keyIndex R 0 att h3
  · intro envKey call R att h
    exact openaiTryLoop_delay call R 0 att (openai_engine_trace_mem envKey call R att h)

/-- Claim C8 witness: a first retry sleeps 1000 ms on the Gemini path and
500 ms on the OpenAI path. -/
theorem backoff_delays_exponential_witness :
    ((⟨0, 1, 1000⟩ : Attempt) ∈ (geminiGenerateContentWithFallback ⟨some "A", none, none⟩
        (fun _ a => if a = 0 then .err (.raw ⟨"503 overloaded", "", ""⟩) else .ok "done") 2).1 ∧
      (⟨0, 1, 1000⟩ : Attempt).delayMs =
        if (⟨0, 1, 1000⟩ : Attempt).retryAttempt = 0 then 0
        else 1000 * 2 ^ ((⟨0, 1, 1000⟩ : Attempt).retryAttempt - 1)) ∧
    ((⟨1, 500⟩ : OAAttempt) ∈ (openaiGenerateContentWithFallback (some "K")
        (fun a => if a = 0 then .err ⟨"rate limit", "", "", ""⟩ else .ok "done") 2).1 ∧
      (⟨1, 500⟩ : OAAttempt).delayMs =
        if (⟨1, 500⟩ : OAAttempt).retryAttempt = 0 then 0
        else 500 * 2 ^ ((⟨1, 500⟩ : OAAttempt).retryAttempt - 1)) := by
  have hg : (⟨0, 1, 1000⟩ : Attempt) ∈ (geminiGenerateContentWithFallback ⟨some "A", none, none⟩
      (fun _ a => if a = 0 then .err (.raw ⟨"503 overloaded", "", ""⟩) else .ok "done") 2).1 := by
    decide
  have ho : (⟨1, 500⟩ : OAAttempt) ∈ (openaiGenerateContentWithFallback (some "K")
      (fun a => if a = 0 then .err ⟨"rate limit", "", "", ""⟩ else .ok "done") 2).1 := by
    decide
  exact ⟨⟨hg, backoff_delays_exponential.1 _ _ 2 _ hg⟩,
         ⟨ho, backoff_delays_exponential.2 _ _ 2 _ ho⟩⟩

/-- Claim C4: whenever the Gemini invocation engine ends in failure, the
thrown value is a normalized `AppError` — a raw provider-library error
never escapes, for any environment, upstream behavior, and retry ceiling. -/
theorem gemini_failures_are_normalized (env : GeminiEnv) (call : Nat → Nat → GemUpRes)
    (R : Nat) (je : JsError)
    (h : (geminiGenerateContentWithFallback env call R).2 = .error je) :
    ∃ a : AppError, je = .app a := by
  by_cases hk : (getApiKeys env).length = 0
  · simp [geminiGenerateContentWithFallback, hk] at h
    exact ⟨_, h.symm⟩
  · simp only [geminiGenerateContentWithFallback, hk, if_neg, ite_false] at h
    cases hout : (geminiTryKeys call R 0 (getApiKeys env).length none).2 with
    | done t =>
      rw [hout] at h
      simp at h
    | exhausted l =>
      rw [hout] at h
      cases l with
      | none =>
        simp at h
        exact ⟨_, h.symm⟩
      | some e2 =>
        cases e2 with
        | app a =>
          simp at h
          exact ⟨a, h.symm⟩
        | raw e3 =>
          simp at h
          split at h <;> injection h with h <;> exact ⟨_, h.symm⟩

/-- Claim C4 witness: a run whose only upstream behavior is a raw "boom"
failure ends in a normalized `AppError` with code `AI_SERVICE_ERROR`. -/
theorem gemini_failures_are_normalized_witness :
    (geminiGenerateContentWithFallback ⟨some "A", none, none⟩
        (fun _ _ => .err (.raw ⟨"boom", "", ""⟩)) 0).2 =
      .error (.app ⟨"AI_SERVICE_ERROR", "boom", 502⟩) ∧
    ∃ a : AppError, (JsError.app ⟨"AI_SERVICE_ERROR", "boom", 502⟩) = .app a :=
  ⟨rfl, gemini_failures_are_normalized ⟨some "A", none, none⟩
    (fun _ _ => .err (.raw ⟨"boom", "", ""⟩)) 0 _ rfl⟩

/-- Claim C2: with a pool of two or more credentials, a non-retryable
(terminal) failure on one credential stops further retries of that
credential but does not abort the call: whenever the engine ends in
failure, every credential of the pool was attempted (each appears in the
trace with a first attempt), so failure is returned only after the full
list is exhausted. -/
theorem gemini_terminal_failure_advances_through_pool
    (env : GeminiEnv) (call : Nat → Nat → GemUpRes) (R : Nat)
    (hpool : 2 ≤ (getApiKeys env).length)
    (i0 a0 : Nat) (e : JsError)
    (hcall : call i0 a0 = .err e) (hterm : geminiJsRetryable e = false) :
    (∀ att ∈ (geminiGenerateContentWithFallback env call R).1,
        att.keyIndex = i0 → att.retryAttempt ≤ a0) ∧
    (∀ je : JsError, (geminiGenerateContentWithFallback env call R).2 = .error je →
      ∀ j, j < (getApiKeys env).length →
        ∃ att ∈ (geminiGenerateContentWithFallback env call R).1,
          att.keyIndex = j ∧ att.retryAttempt = 0) := by
  have hk : (getApiKeys env).length ≠ 0 := by omega
  have htr := gemini_engine_trace_eq env call R hk
  constructor
  · intro att hmem hki
    have hm2 := gemini_engine_trace_mem env call R att hmem
    have hseg := geminiTryKeys_segment call R _ 0 none att hm2
    rw [hki] at hseg
    exact geminiTryKey_stop (call i0) i0 a0 e hcall hterm R 0 (Nat.zero_le a0) att hseg
  · intro je hres j hj
    simp only [geminiGenerateContentWithFallback, hk, if_neg, ite_false] at hres
    cases hout : (geminiTryKeys call R 0 (getApiKeys env).length none).2 with
    | done t =>
      rw [hout] at hres
      simp at hres
    | exhausted l =>
      obtain ⟨att, hmem, hki, hra⟩ :=
        geminiTryKeys_cover call R (getApiKeys env).length 0 none l hout j
          (Nat.zero_le j) (by omega)
      exact ⟨att, by rw [htr]; exact hmem, hki, hra⟩

/-- Claim C2 witness: with two credentials and an always-terminal upstream
failure ("invalid api key"), the failing run still contains a first attempt
against the second credential. -/
theorem gemini_terminal_failure_advances_through_pool_witness :
    ∃ att ∈ (geminiGenerateContentWithFallback ⟨some "A", some "B", none⟩
        (fun _ _ => .err (.raw ⟨"invalid api key", "", ""⟩)) 2).1,
      att.keyIndex = 1 ∧ att.retryAttempt = 0 := by
  have h := gemini_terminal_failure_advances_through_pool ⟨some "A", some "B", none⟩
    (fun _ _ => .err (.raw ⟨"invalid api key", "", ""⟩)) 2 (by decide) 0 0
    (.raw ⟨"invalid api key", "", ""⟩) rfl (by decide)
  exact h.2 (.app ⟨"AI_SERVICE_ERROR", "invalid api key", 502⟩) rfl 1 (by decide)

/-- Claim C6: when the input contains a located ` ```json ` fenced block
whose interior fails to parse, `extractJSONFromString` returns the
"Found a JSON block, but it contained invalid JSON." error immediately and
never falls back to the whole-text parse or the brace-span scan — this
holds for every JSON parser, in particular even when the whole text (or
any other span) would parse as valid JSON. -/
theorem extract_invalid_block_fails_immediately {J : Type}
    (parse : String → Option J) (input inner : String)
    (hloc : locateJsonBlock input = some inner)
    (hbad : parse inner = none) :
    extractJSONFromString parse input = .errInvalidBlock := by
  simp [extractJSONFromString, hloc, hbad]

/-- Claim C6 witness: this input is itself valid JSON, yet the fenced
block located inside its string field has an unparseable interior, so the
extractor raises the invalid-block error instead of succeeding on the
whole text. -/
theorem extract_invalid_block_fails_immediately_witness :
    locateJsonBlock "\x7b\"note\": \"```json oops ```\"\x7d" = some "oops" ∧
    miniJsonParse "oops" = none ∧
    (miniJsonParse "\x7b\"note\": \"```json oops ```\"\x7d").isSome = true ∧
    extractJSONFromString miniJsonParse "\x7b\"note\": \"```json oops ```\"\x7d" =
      .errInvalidBlock :=
  ⟨rfl, rfl, rfl,
   extract_invalid_block_fails_immediately miniJsonParse _ "oops" rfl rfl⟩

theorem sanitize_entries_redacts (go : JVal → JVal) :
    ∀ fields count k v, (k, v) ∈ List.take (50 - count) fields →
      isSensitiveKey k = true →
      (sanitizeEntriesAux go fields count).any
        (fun p => p.1 == k &&
          match p.2 with
          | .str s => s == "[REDACTED]"
          | _ => false) = true := by
  intro fields
  induction fields with
  | nil =>
    intro count k v h _
    simp at h
  | cons kv rest ih =>
    intro count k v h hsens
    obtain ⟨key, value⟩ := kv
    cases htc : 50 - count with
    | zero =>
      rw [htc] at h
      simp at h
    | succ t =>
      rw [htc] at h
      simp only [List.take_succ_cons, List.mem_cons] at h
      rcases h with h | h
      · injection h with h1 h2
        subst h1
        simp [sanitizeEntriesAux, hsens]
      · by_cases hks : isSensitiveKey key = true
        · have htail := ih (count + 1) k v (by
            have ht2 : 50 - (count + 1) = t := by omega
            rw [ht2]
            exact h) hsens
          simp [sanitizeEntriesAux, hks]
          simp at htail
          right
          exact htail
        · have hc2 : ¬ 50 ≤ count := by omega
          have htail := ih (count + 1) k v (by
            have ht2 : 50 - (count + 1) = t := by omega
            rw [ht2]
            exact h) hsens
          simp [sanitizeEntriesAux, hks, hc2]
          simp at htail
          right
          exact htail

/-- Claim C7 (amended): a key whose lowercase form contains a sensitive
marker is redacted to `"[REDACTED]"` whenever its object is processed
below the depth cap AND the key occurs among the object's first 50
entries; a sensitive key preceded by more than 50 non-sensitive entries
can instead be dropped entirely when the too-many-keys cap breaks the
entry loop first. -/
theorem sanitize_redacts_sensitive_keys (fields : List (String × JVal))
    (k : String) (v : JVal) (maxDepth currentDepth : Nat)
    (hdepth : currentDepth < maxDepth)
    (hmem : (k, v) ∈ fields.take 50)
    (hsens : isSensitiveKey k = true) :
    objRedacted (sanitizeData (.obj fields) maxDepth currentDepth) k = true := by
  obtain ⟨f, hf⟩ : ∃ f, maxDepth - currentDepth = f + 1 :=
    ⟨maxDepth - currentDepth - 1, by omega⟩
  unfold sanitizeData
  rw [hf]
  show objRedacted (.obj (sanitizeEntriesAux (sanitizeAux f) fields 0)) k = true
  unfold objRedacted
  have h50 : (k, v) ∈ List.take (50 - 0) fields := by simpa using hmem
  exact sanitize_entries_redacts (sanitizeAux f) fields 0 k v h50 hsens

/-- Claim C7 witness: a mixed-case `PaSsWoRd` key in the first 50 entries
is redacted. -/
theorem sanitize_redacts_sensitive_keys_witness :
    objRedacted (sanitizeData (.obj [("PaSsWoRd", .str "xyz"), ("note", .str "hi")]) 3 0)
      "PaSsWoRd" = true :=
  sanitize_redacts_sensitive_keys [("PaSsWoRd", .str "xyz"), ("note", .str "hi")]
    "PaSsWoRd" (.str "xyz") 3 0 (by omega) (by simp) (by decide)

/-- Claim C7, counterexample: `bigFields` contains a key literally equal to
`password` (which is sensitive), yet after sanitization the output object
has no `password` entry at all — the too-many-keys cap broke the entry
loop before the key was reached, so its value is dropped rather than
replaced by the redaction marker. -/
theorem sanitize_password_dropped_after_cap :
    bigFields.any (fun p => p.1 == "password") = true ∧
    isSensitiveKey "password" = true ∧
    objHasKey (sanitizeData (.obj bigFields) 3 0) "password" = false := by
  refine ⟨by decide, by decide, by decide⟩

/-- Claim C9: for an audited exchange with final status ≥ 400 the recorder
takes `errorCode` from the sanitized body's `errorCode`/`error_code` field
when one is present (truthy), synthesizes `HTTP_<status>` otherwise, and
takes `errorMessage` from the body's `message`/`error` field; below 400
both fields are null. -/
theorem audit_error_fields_derivation (statusCode : Nat) (body : Option JVal) :
    (statusCode < 400 → deriveErrorFields statusCode body = (none, none)) ∧
    (400 ≤ statusCode →
      (deriveErrorFields statusCode body).2 = bodyExplicitErrorMessage body ∧
      ((bodyExplicitErrorCode body = none ∧
          (deriveErrorFields statusCode body).1 =
            some (.str ("HTTP_" ++ toString statusCode))) ∨
        (∃ v, bodyExplicitErrorCode body = some v ∧
          (deriveErrorFields statusCode body).1 = some v))) := by
  constructor
  · intro h
    have h2 : ¬ 400 ≤ statusCode := by omega
    simp [deriveErrorFields, h2]
  · intro h
    constructor
    · cases hec : bodyExplicitErrorCode body <;> simp [deriveErrorFields, h, hec]
    · cases hec : bodyExplicitErrorCode body with
      | none =>
        left
        exact ⟨rfl, by simp [deriveErrorFields, h, hec]⟩
      | some v =>
        right
        exact ⟨v, rfl, by simp [deriveErrorFields, h, hec]⟩

/-- Claim C9 witness: a 404 with body whose only field is
`message = "not found"` is recorded with `errorCode = "HTTP_404"` and
`errorMessage = "not found"`. -/
theorem audit_error_fields_derivation_witness :
    deriveErrorFields 404 (some (.obj [("message", .str "not found")])) =
      (some (.str "HTTP_404"), some (.str "not found")) ∧
    (deriveErrorFields 404 (some (.obj [("message", .str "not found")]))).2 =
      bodyExplicitErrorMessage (some (.obj [("message", .str "not found")])) :=
  ⟨rfl, ((audit_error_fields_derivation 404 (some (.obj [("message", .str "not found")]))).2
    (by omega)).1⟩

theorem runResponseEvents_sent {α : Type} (s : CaptureState α) (hs : s.responseSent = true) :
    ∀ events : List (ResEvent α), runResponseEvents s events = (s, events.map resEventBody) := by
  intro events
  induction events with
  | nil => simp [runResponseEvents]
  | cons e rest ih =>
    simp [runResponseEvents, handleResponseCall, hs, ih]

/-- Claim C10: the body captured for the audit record is the argument of
the first `res.send`/`res.json` invocation; every later invocation still
forwards its body to the original method but never changes the captured
`responseBody`. -/
theorem audit_captures_first_response_body {α : Type}
    (events : List (ResEvent α)) (e : ResEvent α) (rest : List (ResEvent α))
    (h : events = e :: rest) :
    (runResponseEvents ⟨none, false⟩ events).1.responseBody = some (resEventBody e) ∧
    (runResponseEvents ⟨none, false⟩ events).2 = events.map resEventBody := by
  subst h
  have hstep : handleResponseCall (⟨none, false⟩ : CaptureState α) (resEventBody e) =
      (⟨some (resEventBody e), true⟩, resEventBody e) := by
    simp [handleResponseCall]
  constructor <;>
    simp [runResponseEvents, hstep, runResponseEvents_sent (⟨some (resEventBody e), true⟩ : CaptureState α) rfl]

/-- Claim C10 witness: with calls `send 1; json 2; send 3` the captured
body is `1` and all three bodies are forwarded. -/
theorem audit_captures_first_response_body_witness :
    (runResponseEvents (⟨none, false⟩ : CaptureState Nat)
        [.send 1, .json 2, .send 3]).1.responseBody = some 1 ∧
    (runResponseEvents (⟨none, false⟩ : CaptureState Nat)
        [.send 1, .json 2, .send 3]).2 = [1, 2, 3] := by
  have h := audit_captures_first_response_body
    ([.send 1, .json 2, .send 3] : List (ResEvent Nat)) (.send 1) [.json 2, .send 3] rfl
  refine ⟨h.1, ?_⟩
  rw [h.2]
  rfl
